import Mathlib

/-!
Shallow embedding of the task-list service in src/main.rs (Rust, salvo).

The store is a vector of tasks behind one mutex; each handler takes the
decoded request pieces and the current store contents and yields the store
contents after the call together with the HTTP status code it sets.  The
fallible decode steps of the source (parse_body, the path parameter) are
modelled as Option arguments; the source calls .unwrap() on them, so a
failed decode is modelled as the handler producing no response at all
(Option.none on the result side), mirroring the panic.
-/

set_option autoImplicit false

/-- The stored record, mirroring struct Todo: an i64 id, a text string and a
completed flag.  Ids are only ever compared for equality, so Int models i64
exactly on every value the program can hold. -/
structure Todo where
  id : Int
  text : String
  completed : Bool
  deriving DecidableEq, Repr

/-- Pagination options, mirroring struct ListOptions: two optional usize
fields (usize modelled as Nat; the target is 64-bit). -/
structure ListOptions where
  offset : Option Nat
  limit : Option Nat
  deriving DecidableEq, Repr

/-- The derived Default of ListOptions: both fields None. -/
def ListOptions.default : ListOptions := { offset := none, limit := none }

/-- std::usize::MAX on the 64-bit target, used by list_todos as the default
limit. -/
def USIZE_MAX : Nat := 2 ^ 64 - 1

/-- Outcome of a mutating handler call: the vector contents after the call
and the status code set on the response (200 OK, 201 CREATED, 204
NO_CONTENT, 400 BAD_REQUEST, 404 NOT_FOUND). -/
structure HandlerResult where
  store : List Todo
  status : Nat
  deriving DecidableEq, Repr

/-- Outcome of the list handler: the (unchanged) vector contents, the JSON
array rendered to the client, and the status code. -/
structure ListResult where
  store : List Todo
  rendered : List Todo
  status : Nat
  deriving DecidableEq, Repr

/-- Handler list_todos (src/main.rs 40-57).  parse_body::<ListOptions> is
the Option argument; unwrap_or_default replaces a failed parse by the
default options.  The handler clones the vector, skips offset (defaulting
to 0) elements, takes limit (defaulting to usize::MAX) elements and renders
them; it never touches the vector and sets no explicit status, so the
response goes out as 200. -/
def list_todos (parsedBody : Option ListOptions) (store : List Todo) : ListResult :=
  let opts := parsedBody.getD ListOptions.default
  let todos := (store.drop (opts.offset.getD 0)).take (opts.limit.getD USIZE_MAX)
  { store := store, rendered := todos, status := 200 }

/-- Handler create_todo (src/main.rs 60-80).  parse_body::<Todo> is the
Option argument and its .unwrap() is the outer match: a failed decode
panics, producing no response.  The for loop over the vector rejects an
existing id with 400 and no change; otherwise the task is pushed at the end
and 201 is returned. -/
def create_todo (parsedBody : Option Todo) (store : List Todo) : Option HandlerResult :=
  match parsedBody with
  | none => none
  | some new_todo =>
    if store.any (fun todo => todo.id == new_todo.id) then
      some { store := store, status := 400 }
    else
      some { store := store ++ [new_todo], status := 201 }

/-- The iter_mut loop of update_todo: overwrite the first element whose id
matches and stop; none when no element matches. -/
def replaceFirst (id : Int) (updated : Todo) : List Todo → Option (List Todo)
  | [] => none
  | todo :: rest =>
    if todo.id == id then some (updated :: rest)
    else (replaceFirst id updated rest).map (fun rest2 => todo :: rest2)

/-- Handler update_todo (src/main.rs 84-106).  The path parameter and
parse_body::<Todo> are the Option arguments; each is .unwrap()ed by the
source, modelled by the outer matches propagating none (panic).  The first
stored task whose id equals the path id is overwritten wholesale — its id
field included — with 200; if none matches, 404 and no change. -/
def update_todo (paramId : Option Int) (parsedBody : Option Todo)
    (store : List Todo) : Option HandlerResult :=
  match paramId with
  | none => none
  | some id =>
    match parsedBody with
    | none => none
    | some updated_todo =>
      match replaceFirst id updated_todo store with
      | some store2 => some { store := store2, status := 200 }
      | none => some { store := store, status := 404 }

/-- Handler delete_todo (src/main.rs 109-133).  The path parameter is
.unwrap()ed.  retain keeps exactly the tasks whose id differs from the path
id; 204 is reported iff the length changed, else 404 — either way the
vector is the retained one. -/
def delete_todo (paramId : Option Int) (store : List Todo) : Option HandlerResult :=
  match paramId with
  | none => none
  | some id =>
    let len := store.length
    let vec := store.filter (fun todo => todo.id != id)
    if vec.length != len then
      some { store := vec, status := 204 }
    else
      some { store := vec, status := 404 }

/-! Supporting lemmas about the loop bodies. -/

/-- When no stored task carries the id, the update loop falls through. -/
theorem replaceFirst_eq_none (id : Int) (T : Todo) (s : List Todo)
    (h : ∀ u ∈ s, u.id ≠ id) : replaceFirst id T s = none := by
  induction s with
  | nil => rfl
  | cons u us ih =>
    have hu : ¬(u.id == id) = true := by
      simpa using h u (List.mem_cons_self u us)
    simp only [replaceFirst, if_neg hu]
    rw [ih fun v hv => h v (List.mem_cons_of_mem u hv)]
    rfl

/-- When some stored task carries the id, the update loop overwrites exactly
the first matching position. -/
theorem replaceFirst_eq_set (id : Int) (T : Todo) (s : List Todo)
    (h : ∃ t ∈ s, t.id = id) :
    replaceFirst id T s = some (s.set (s.findIdx (fun t => t.id == id)) T) := by
  induction s with
  | nil => simp at h
  | cons u us ih =>
    by_cases hu : (u.id == id) = true
    · simp [replaceFirst, hu, List.findIdx_cons, List.set]
    · have hus : ∃ t ∈ us, t.id = id := by
        rcases h with ⟨t, ht, hid⟩
        rcases List.mem_cons.mp ht with rfl | hmem
        · exact absurd (by simpa using hid) hu
        · exact ⟨t, hmem, hid⟩
      simp [replaceFirst, hu, ih hus, List.findIdx_cons, List.set]

/-- Retain is the identity when no stored task carries the id. -/
theorem filter_ne_id_eq_self (id : Int) (s : List Todo)
    (h : ∀ u ∈ s, u.id ≠ id) :
    s.filter (fun todo => todo.id != id) = s :=
  List.filter_eq_self.mpr fun u hu => by simpa using h u hu

/-- Under unique ids, retaining the non-matching tasks drops exactly one
element when a match is present. -/
theorem filter_ne_id_length (id : Int) (s : List Todo)
    (hnd : (s.map Todo.id).Nodup) (h : ∃ t ∈ s, t.id = id) :
    (s.filter (fun todo => todo.id != id)).length + 1 = s.length := by
  induction s with
  | nil => simp at h
  | cons u us ih =>
    rw [List.map_cons, List.nodup_cons] at hnd
    by_cases hu : (u.id == id) = true
    · have hid : u.id = id := by simpa using hu
      have hnone : ∀ v ∈ us, v.id ≠ id := by
        intro v hv hvid
        have hmem : v.id ∈ us.map Todo.id := List.mem_map_of_mem Todo.id hv
        rw [hvid, ← hid] at hmem
        exact hnd.1 hmem
      rw [List.filter_cons_of_neg (by simpa using hid)]
      rw [filter_ne_id_eq_self id us hnone]
      simp
    · have hus : ∃ t ∈ us, t.id = id := by
        rcases h with ⟨t, ht, hid⟩
        rcases List.mem_cons.mp ht with rfl | hmem
        · exact absurd (by simpa using hid) hu
        · exact ⟨t, hmem, hid⟩
      rw [List.filter_cons_of_pos (by simpa using hu)]
      simp only [List.length_cons]
      rw [← ih hnd.2 hus]

/-! The claims. -/

/-- Claim C1: a Create or Update request whose body fails to decode does not
get a 400 response — the source calls .unwrap() on the decode result, so
the handler panics and produces no response at all.  The theorem evaluates
both handlers at a failed decode (body argument none). -/
theorem decode_failure_produces_no_response :
    create_todo none [] = none ∧ update_todo (some 1) none [] = none :=
  ⟨rfl, rfl⟩

/-- Claim C2: the id-uniqueness invariant is not preserved by update.  From
the empty store, create id 1, create id 2, then update of id 1 whose payload
carries id 2 all succeed, yet the final store holds two tasks with id 2. -/
theorem update_breaks_id_uniqueness :
    create_todo (some ⟨1, "a", false⟩) [] =
      some { store := [⟨1, "a", false⟩], status := 201 } ∧
    create_todo (some ⟨2, "b", false⟩) [⟨1, "a", false⟩] =
      some { store := [⟨1, "a", false⟩, ⟨2, "b", false⟩], status := 201 } ∧
    update_todo (some 1) (some ⟨2, "c", true⟩) [⟨1, "a", false⟩, ⟨2, "b", false⟩] =
      some { store := [⟨2, "c", true⟩, ⟨2, "b", false⟩], status := 200 } ∧
    ¬ (([⟨2, "c", true⟩, ⟨2, "b", false⟩] : List Todo).map Todo.id).Nodup := by
  refine ⟨by decide, by decide, by decide, by decide⟩

/-- Claim C8: ListOptions decoding is lenient — a failed body parse behaves
exactly as offset 0 with limit usize::MAX, a missing offset as offset 0, a
missing limit as limit usize::MAX — and the list handler answers 200 on
every input. -/
theorem list_options_lenient_defaults (s : List Todo) (off lim : Option Nat)
    (b : Option ListOptions) :
    list_todos none s =
      list_todos (some { offset := some 0, limit := some USIZE_MAX }) s ∧
    list_todos (some { offset := none, limit := lim }) s =
      list_todos (some { offset := some 0, limit := lim }) s ∧
    list_todos (some { offset := off, limit := none }) s =
      list_todos (some { offset := off, limit := some USIZE_MAX }) s ∧
    (list_todos b s).status = 200 :=
  ⟨rfl, rfl, rfl, rfl⟩

/-- Claim C9: delete removes every stored task carrying the path id, not
only the first match: the resulting vector is the retain-filter of the old
one whatever the status, no surviving task carries the id, and a store
holding two tasks with id 2 loses both in one call. -/
theorem delete_removes_all_matches (s : List Todo) (id : Int) :
    (∃ c, delete_todo (some id) s =
      some { store := s.filter (fun todo => todo.id != id), status := c }) ∧
    (∀ t ∈ s.filter (fun todo => todo.id != id), t.id ≠ id) ∧
    delete_todo (some 2) [⟨2, "a", false⟩, ⟨1, "b", false⟩, ⟨2, "c", true⟩] =
      some { store := [⟨1, "b", false⟩], status := 204 } := by
  refine ⟨?_, ?_, by decide⟩
  · unfold delete_todo
    by_cases hlen :
        ((s.filter (fun todo => todo.id != id)).length != s.length) = true
    · exact ⟨204, by simp only [if_pos hlen]⟩
    · exact ⟨404, by simp only [if_neg hlen]⟩
  · intro t ht
    have := (List.mem_filter.mp ht).2
    simpa using this

/-- Witness for C9 at a store holding two tasks with id 2. -/
theorem delete_removes_all_matches_witness :
    (∃ c, delete_todo (some 2) [(⟨2, "a", false⟩ : Todo), ⟨1, "b", false⟩, ⟨2, "c", true⟩] =
      some { store := [⟨1, "b", false⟩], status := c }) ∧
    ∀ t ∈ ([⟨2, "a", false⟩, ⟨1, "b", false⟩, ⟨2, "c", true⟩] : List Todo).filter
        (fun todo => todo.id != 2), t.id ≠ 2 :=
  ⟨(delete_removes_all_matches [⟨2, "a", false⟩, ⟨1, "b", false⟩, ⟨2, "c", true⟩] 2).1,
   (delete_removes_all_matches [⟨2, "a", false⟩, ⟨1, "b", false⟩, ⟨2, "c", true⟩] 2).2.1⟩

/-- Claim C3: each failing store operation leaves the vector exactly in its
pre-call state: duplicate-id create answers 400 with the store unchanged,
absent-id update answers 404 unchanged, absent-id delete answers 404
unchanged. -/
theorem failed_ops_leave_store_unchanged (s : List Todo) (t : Todo) (id : Int) :
    ((∃ u ∈ s, u.id = t.id) →
      create_todo (some t) s = some { store := s, status := 400 }) ∧
    ((∀ u ∈ s, u.id ≠ id) →
      update_todo (some id) (some t) s = some { store := s, status := 404 }) ∧
    ((∀ u ∈ s, u.id ≠ id) →
      delete_todo (some id) s = some { store := s, status := 404 }) := by
  refine ⟨?_, ?_, ?_⟩
  · intro h
    have hany : s.any (fun todo => todo.id == t.id) = true := by
      rcases h with ⟨u, hu, hid⟩
      exact List.any_eq_true.mpr ⟨u, hu, by simpa using hid⟩
    simp [create_todo, hany]
  · intro h
    simp [update_todo, replaceFirst_eq_none id t s h]
  · intro h
    have hf := filter_ne_id_eq_self id s h
    simp [delete_todo, hf]

/-- Witness for C3 at a one-element store. -/
theorem failed_ops_leave_store_unchanged_witness :
    create_todo (some ⟨1, "b", true⟩) [⟨1, "a", false⟩] =
      some { store := [⟨1, "a", false⟩], status := 400 } ∧
    update_todo (some 2) (some ⟨1, "b", true⟩) [⟨1, "a", false⟩] =
      some { store := [⟨1, "a", false⟩], status := 404 } ∧
    delete_todo (some 2) [⟨1, "a", false⟩] =
      some { store := [⟨1, "a", false⟩], status := 404 } :=
  ⟨(failed_ops_leave_store_unchanged [⟨1, "a", false⟩] ⟨1, "b", true⟩ 2).1 (by decide),
   (failed_ops_leave_store_unchanged [⟨1, "a", false⟩] ⟨1, "b", true⟩ 2).2.1 (by decide),
   (failed_ops_leave_store_unchanged [⟨1, "a", false⟩] ⟨1, "b", true⟩ 2).2.2 (by decide)⟩

/-- Claim C4: create with a fresh id appends the task at the end with 201 —
the new vector holds exactly one copy of it, as its last element — while
create with a present id answers 400 with the vector unchanged. -/
theorem create_appends_fresh_rejects_duplicate (s : List Todo) (T : Todo) :
    ((∀ u ∈ s, u.id ≠ T.id) →
      create_todo (some T) s = some { store := s ++ [T], status := 201 } ∧
      (s ++ [T]).count T = 1 ∧ (s ++ [T]).getLast? = some T) ∧
    ((∃ u ∈ s, u.id = T.id) →
      create_todo (some T) s = some { store := s, status := 400 }) := by
  refine ⟨?_, ?_⟩
  · intro h
    have hany : s.any (fun todo => todo.id == T.id) = false :=
      List.any_eq_false.mpr fun u hu => by simpa using h u hu
    have hnotmem : T ∉ s := fun hmem => h T hmem rfl
    refine ⟨by simp [create_todo, hany], ?_, List.getLast?_concat s⟩
    rw [List.count_append, List.count_eq_zero.mpr hnotmem]
    simp [List.count_cons]
  · intro h
    have hany : s.any (fun todo => todo.id == T.id) = true := by
      rcases h with ⟨u, hu, hid⟩
      exact List.any_eq_true.mpr ⟨u, hu, by simpa using hid⟩
    simp [create_todo, hany]

/-- Witness for C4: a fresh create appends, a duplicate create is refused. -/
theorem create_appends_fresh_rejects_duplicate_witness :
    create_todo (some ⟨2, "b", false⟩) [⟨1, "a", false⟩] =
      some { store := [⟨1, "a", false⟩, ⟨2, "b", false⟩], status := 201 } ∧
    create_todo (some ⟨1, "b", true⟩) [⟨1, "a", false⟩] =
      some { store := [⟨1, "a", false⟩], status := 400 } :=
  ⟨((create_appends_fresh_rejects_duplicate [⟨1, "a", false⟩] ⟨2, "b", false⟩).1
      (by decide)).1,
   (create_appends_fresh_rejects_duplicate [⟨1, "a", false⟩] ⟨1, "b", true⟩).2
      (by decide)⟩

/-- Claim C5: when some stored task has the path id, update answers 200 and
the new vector is the old one with the first matching position overwritten
by the payload — its id field included — while every other position reads
back unchanged. -/
theorem update_present_replaces_in_place (s : List Todo) (id : Int) (T : Todo)
    (h : ∃ t ∈ s, t.id = id) :
    update_todo (some id) (some T) s =
      some { store := s.set (s.findIdx (fun t => t.id == id)) T, status := 200 } ∧
    ∀ j, j ≠ s.findIdx (fun t => t.id == id) →
      (s.set (s.findIdx (fun t => t.id == id)) T)[j]? = s[j]? := by
  refine ⟨by simp [update_todo, replaceFirst_eq_set id T s h], ?_⟩
  intro j hj
  exact List.getElem?_set_ne fun e => hj e.symm

/-- Witness for C5 at a two-element store whose second task matches; the
first position reads back unchanged. -/
theorem update_present_replaces_in_place_witness :
    update_todo (some 2) (some ⟨2, "z", true⟩) [⟨1, "a", false⟩, ⟨2, "b", false⟩] =
      some { store := [⟨1, "a", false⟩, ⟨2, "z", true⟩], status := 200 } ∧
    (([⟨1, "a", false⟩, ⟨2, "b", false⟩] : List Todo).set 1 ⟨2, "z", true⟩)[0]? =
      some ⟨1, "a", false⟩ :=
  ⟨(update_present_replaces_in_place [⟨1, "a", false⟩, ⟨2, "b", false⟩] 2
      ⟨2, "z", true⟩ (by decide)).1,
   (update_present_replaces_in_place [⟨1, "a", false⟩, ⟨2, "b", false⟩] 2
      ⟨2, "z", true⟩ (by decide)).2 0 (by decide)⟩

/-- Claim C6: under the id-uniqueness invariant, delete of a present id
answers 204, shrinks the vector by exactly one element and leaves no task
with that id; delete of an absent id answers 404 with the vector (hence its
length) unchanged. -/
theorem delete_present_removes_one_else_404 (s : List Todo) (id : Int)
    (hnd : (s.map Todo.id).Nodup) :
    ((∃ t ∈ s, t.id = id) →
      delete_todo (some id) s =
        some { store := s.filter (fun todo => todo.id != id), status := 204 } ∧
      (s.filter (fun todo => todo.id != id)).length + 1 = s.length ∧
      ∀ t ∈ s.filter (fun todo => todo.id != id), t.id ≠ id) ∧
    ((∀ t ∈ s, t.id ≠ id) →
      delete_todo (some id) s = some { store := s, status := 404 }) := by
  refine ⟨?_, ?_⟩
  · intro h
    have hlen := filter_ne_id_length id s hnd h
    have hne : (s.filter (fun todo => todo.id != id)).length ≠ s.length := by omega
    refine ⟨?_, hlen, ?_⟩
    · simp [delete_todo, hne]
    · intro t ht
      simpa using (List.mem_filter.mp ht).2
  · intro h
    have hf := filter_ne_id_eq_self id s h
    simp [delete_todo, hf]

/-- Witness for C6: deleting the present id 1 and the absent id 3. -/
theorem delete_present_removes_one_else_404_witness :
    (delete_todo (some 1) [(⟨1, "a", false⟩ : Todo)] =
        some { store := [], status := 204 } ∧
      (0 : Nat) + 1 = 1 ∧ ∀ t ∈ ([] : List Todo), t.id ≠ 1) ∧
    delete_todo (some 3) [(⟨1, "a", false⟩ : Todo)] =
      some { store := [⟨1, "a", false⟩], status := 404 } :=
  ⟨(delete_present_removes_one_else_404 [⟨1, "a", false⟩] 1 (by decide)).1 (by decide),
   (delete_present_removes_one_else_404 [⟨1, "a", false⟩] 3 (by decide)).2 (by decide)⟩

/-- Claim C7: list with explicit options renders exactly drop-offset then
take-limit of the vector, leaves the vector unchanged with status 200, never
renders more than limit elements, and renders the empty sequence when the
offset reaches the length. -/
theorem list_skips_offset_takes_limit (s : List Todo) (off lim : Nat) :
    list_todos (some { offset := some off, limit := some lim }) s =
      { store := s, rendered := (s.drop off).take lim, status := 200 } ∧
    ((s.drop off).take lim).length ≤ lim ∧
    (s.length ≤ off → (s.drop off).take lim = []) := by
  refine ⟨rfl, List.length_take_le lim _, fun h => ?_⟩
  rw [List.drop_eq_nil_of_le h]
  exact List.take_nil

/-- Witness for C7 with an offset past the end of a one-element store. -/
theorem list_skips_offset_takes_limit_witness :
    list_todos (some { offset := some 2, limit := some 5 }) [(⟨1, "a", false⟩ : Todo)] =
      { store := [⟨1, "a", false⟩], rendered := [], status := 200 } ∧
    (([(⟨1, "a", false⟩ : Todo)].drop 2).take 5) = [] :=
  ⟨(list_skips_offset_takes_limit [⟨1, "a", false⟩] 2 5).1,
   (list_skips_offset_takes_limit [⟨1, "a", false⟩] 2 5).2.2 (by decide)⟩

/-- The update loop on a vector split around its first match: everything
before the match keeps its place, the match is overwritten, everything
after — further matches included — is untouched. -/
theorem replaceFirst_append (id : Int) (T : Todo) (pre post : List Todo) (t : Todo)
    (ht : t.id = id) (hpre : ∀ u ∈ pre, u.id ≠ id) :
    replaceFirst id T (pre ++ t :: post) = some (pre ++ T :: post) := by
  induction pre with
  | nil => simp [replaceFirst, ht]
  | cons u us ih =>
    have hu : ¬(u.id == id) = true := by
      simpa using hpre u (List.mem_cons_self u us)
    simp [replaceFirst, hu, ih fun v hv => hpre v (List.mem_cons_of_mem u hv)]

/-- Claim C10: update overwrites only the first task in insertion order
whose id matches and returns at once: every task after that first match —
even one sharing the same id — survives unchanged. -/
theorem update_replaces_only_first_match (pre post : List Todo) (t T : Todo)
    (id : Int) (ht : t.id = id) (hpre : ∀ u ∈ pre, u.id ≠ id) :
    update_todo (some id) (some T) (pre ++ t :: post) =
      some { store := pre ++ T :: post, status := 200 } := by
  simp [update_todo, replaceFirst_append id T pre post t ht hpre]

/-- Witness for C10: two tasks share id 2; only the first is overwritten. -/
theorem update_replaces_only_first_match_witness :
    update_todo (some 2) (some ⟨2, "z", true⟩)
        [⟨1, "a", false⟩, ⟨2, "b", false⟩, ⟨2, "c", true⟩] =
      some { store := [⟨1, "a", false⟩, ⟨2, "z", true⟩, ⟨2, "c", true⟩], status := 200 } :=
  update_replaces_only_first_match [⟨1, "a", false⟩] [⟨2, "c", true⟩]
    ⟨2, "b", false⟩ ⟨2, "z", true⟩ 2 (by decide) (by decide)
